import Mathlib

/-!
Shallow embedding of the thread-attachment layer (`src/mem/threadalloc.h`)
and the Apple PAL backend (`src/pal/pal_apple.h`) of snmalloc, together
with theorems settling the specification claims about them.
-/

namespace Snmalloc

/-- A value of type `Alloc*` as seen by the thread slot: the C++ null
pointer, the address of the process-wide `GlobalPlaceHolder`, or the
address of a real allocator handle (identified by a number). -/
inductive Ptr where
  | null : Ptr
  | placeholder : Ptr
  | real : Nat → Ptr
deriving DecidableEq, Repr

/-- The observable state of one thread's attachment machinery: the
thread-local slot (`per_thread` / `alloc`, a `static thread_local Alloc*`
initialised to `&GlobalPlaceHolder`), plus the trace of Pool interactions
(`current_alloc_pool()->release(...)` calls in order, and the count of
`current_alloc_pool()->acquire()` calls) and whether
`ThreadAlloc::register_cleanup()` has been invoked. -/
structure TAState where
  slot : Ptr
  released : List Ptr
  acquired : Nat
  cleanupRegistered : Bool
deriving DecidableEq, Repr

/-- The state of a fresh thread: the `thread_local` initialiser sets the
slot to `&GlobalPlaceHolder`; no Pool interaction has happened. -/
def freshThreadState : TAState :=
  { slot := Ptr.placeholder, released := [], acquired := 0,
    cleanupRegistered := false }

/-- `ThreadAllocThreadDestructor::get` / `ThreadAllocLibcCleanup::get`:
returns the thread's current slot value.  The body is a single read of the
`thread_local` variable, so the state is returned unchanged. -/
def get (s : TAState) : Ptr × TAState := (s.slot, s)

/-- A sequence of `n` consecutive `get()` calls, collecting the returned
references and threading the state. -/
def getSeq : Nat → TAState → List Ptr × TAState
  | 0, s => ([], s)
  | n + 1, s =>
    let r1 := get s
    let r2 := getSeq n r1.2
    (r1.1 :: r2.1, r2.2)

/-- `ThreadAllocLibcCleanup::exit` (threadalloc.h lines 67-75).  Note the
source declares `auto* per_thread = get();`, a COPY of the slot pointer,
not a reference into the slot; hence the final `per_thread = nullptr;`
writes only the local copy and the thread slot itself is left unchanged. -/
def libcCleanupExit (s : TAState) : TAState :=
  let per_thread := s.slot
  if per_thread ≠ Ptr.placeholder ∧ per_thread ≠ Ptr.null then
    { s with released := s.released ++ [per_thread] }
  else
    s

/-- `ThreadAllocThreadDestructor::inner_release` (threadalloc.h lines
128-135): `get()` yields a reference, so the write
`get() = &GlobalPlaceHolder` does update the thread slot. -/
def inner_release (s : TAState) : TAState :=
  if s.slot ≠ Ptr.placeholder then
    { s with released := s.released ++ [s.slot], slot := Ptr.placeholder }
  else
    s

/-- `lazy_replacement_slow` (threadalloc.h lines 196-207).  The Pool is an
external collaborator; `acq` is the handle `current_alloc_pool()->acquire()`
would hand out.  `auto*& local_alloc = ThreadAlloc::get();` is a reference,
so `local_alloc = ...->acquire()` stores the acquired handle in the slot;
then `ThreadAlloc::register_cleanup()` runs and the handle is returned. -/
def lazy_replacement_slow (acq : Ptr) (s : TAState) : Ptr × TAState :=
  let local_alloc := s.slot
  if local_alloc ≠ Ptr.null ∧ local_alloc ≠ Ptr.placeholder then
    (local_alloc, s)
  else
    (acq,
      { s with slot := acq, acquired := s.acquired + 1,
               cleanupRegistered := true })

/-- `lazy_replacement` (threadalloc.h lines 217-224): returns `nullptr`
(`none`) without touching anything unless `existing` is the address of
`GlobalPlaceHolder`, in which case it delegates to the slow path. -/
def lazy_replacement (acq existing : Ptr) (s : TAState) :
    Option Ptr × TAState :=
  if existing ≠ Ptr.placeholder then
    (none, s)
  else
    let (r, s1) := lazy_replacement_slow acq s
    (some r, s1)

/-! ## PAL: Apple backend (`src/pal/pal_apple.h`) -/

/-- Byte-addressed memory: the byte value stored at each address. -/
def Mem : Type := Nat → Nat

/-- The platform page size used by the alignment test. -/
def OS_PAGE_SIZE : Nat := 4096

/-- Modelled from the spec: `bits::is_aligned_block<OS_PAGE_SIZE>(p, size)`
lives in `src/ds/bits.h`, which is not part of this slice.  The spec states
the remap path requires "`ptr` and `size` page-aligned" ("verified at
runtime to be aligned to the platform page size"), so the block test holds
exactly when both the pointer and the size are multiples of the page
size. -/
def is_aligned_block (align p size : Nat) : Bool :=
  decide (p % align = 0) && decide (size % align = 0)

/-- `bzero(p, size)`: libc primitive writing `size` zero bytes starting at
`p` (the explicit fill path). -/
def bzero (m : Mem) (p size : Nat) : Mem :=
  fun a => if p ≤ a ∧ a < p + size then 0 else m a

/-- `mmap(p, size, ..., MAP_FIXED | MAP_ANONYMOUS | MAP_PRIVATE, ...)`:
OS primitive that, on success, replaces `[p, p + size)` with fresh
zero-filled anonymous memory; it may fail (`MAP_FAILED`), which `ok`
selects. -/
def mmap_fixed_anon (ok : Bool) (m : Mem) (p size : Nat) : Option Mem :=
  if ok then some (fun a => if p ≤ a ∧ a < p + size then 0 else m a)
  else none

/-- `PALApple::zero<page_aligned>(p, size)` (pal_apple.h lines 29-48).
Returns the resulting memory together with a flag recording whether the
remap (mmap) path was attempted.  If the static `page_aligned` flag or the
runtime alignment test holds, the region is remapped as fresh anonymous
memory; when that mmap fails — or when the alignment test fails — the
explicit `bzero` fill runs. -/
def PALApple.zero (page_aligned mmap_ok : Bool) (m : Mem) (p size : Nat) :
    Mem × Bool :=
  if page_aligned || is_aligned_block OS_PAGE_SIZE p size then
    match mmap_fixed_anon mmap_ok m p size with
    | some m1 => (m1, true)
    | none => (bzero m p size, true)
  else
    (bzero m p size, false)

/-- Result of `PALApple::reserve`: either the address of the mapping, with
the number of usable bytes obtained, or the fatal process-terminating
`error(...)` call.  There is no recoverable-failure constructor because the
source has no path that returns one. -/
inductive ReserveResult where
  | ok : Nat → Nat → ReserveResult
  | fatal : String → ReserveResult
deriving DecidableEq, Repr

/-- `PALApple::reserve<committed>(size)` (pal_apple.h lines 51-66).  `os`
models the OS `mmap(nullptr, len, ...)` primitive: given the requested
length it yields the base address of a mapping of exactly that length, or
`none` for `MAP_FAILED`.  The source passes `*size` through unchanged, so
the mapping request is for exactly `size` bytes; on `MAP_FAILED` it calls
`error("Out of memory")`, and the `committed` template parameter is unused
in the body. -/
def PALApple.reserve (committed : Bool) (os : Nat → Option Nat)
    (size : Nat) : ReserveResult :=
  match os size with
  | none => ReserveResult.fatal "Out of memory"
  | some p => ReserveResult.ok p size

/-- `PALApple::pal_features` (pal_apple.h line 26) is declared as
`static constexpr uint64_t pal_features = PALBSD::pal_features;`.
`pal_bsd.h` is not part of this slice, so the base flag set is taken as a
parameter; the Apple backend re-exports it unchanged. -/
def PALApple.pal_features (palBSD_pal_features : Nat) : Nat :=
  palBSD_pal_features

/-! ## Theorems for the claims -/

/-- C1: the claim states that when `ThreadAllocLibcCleanup::exit` runs with
the slot holding a real handle, the handle is released to the Pool AND the
slot reference is null afterwards.  The source takes `auto* per_thread =
get();`, a copy; the final `per_thread = nullptr;` is a dead store on that
copy.  Evaluating the embedded code at a slot holding a real handle: the
handle is released, but the slot still references the released handle
rather than null. -/
theorem C1_exit_releases_but_slot_not_nulled :
    (Snmalloc.libcCleanupExit
      { slot := Snmalloc.Ptr.real 0, released := [], acquired := 1,
        cleanupRegistered := true }).released = [Snmalloc.Ptr.real 0] ∧
    (Snmalloc.libcCleanupExit
      { slot := Snmalloc.Ptr.real 0, released := [], acquired := 1,
        cleanupRegistered := true }).slot = Snmalloc.Ptr.real 0 := by
  constructor <;> rfl

/-- C2: `lazy_replacement(existing)` returns null with no Pool interaction
and no slot mutation (the state is returned unchanged) whenever `existing`
is not the Placeholder; when `existing` is the Placeholder it invokes
`lazy_replacement_slow` and returns exactly its result. -/
theorem C2_lazy_replacement_fast_path (acq existing : Snmalloc.Ptr)
    (s : Snmalloc.TAState) :
    (existing ≠ Snmalloc.Ptr.placeholder →
      Snmalloc.lazy_replacement acq existing s = (none, s)) ∧
    (existing = Snmalloc.Ptr.placeholder →
      Snmalloc.lazy_replacement acq existing s =
        (some (Snmalloc.lazy_replacement_slow acq s).1,
          (Snmalloc.lazy_replacement_slow acq s).2)) := by
  constructor
  · intro h
    simp [Snmalloc.lazy_replacement, h]
  · intro h
    subst h
    simp [Snmalloc.lazy_replacement]

/-- Witness for C2 at concrete inputs: a real handle bails out with null and
an unchanged state; the Placeholder delegates to the slow path. -/
theorem C2_witness :
    Snmalloc.lazy_replacement (Snmalloc.Ptr.real 1) (Snmalloc.Ptr.real 0)
      Snmalloc.freshThreadState = (none, Snmalloc.freshThreadState) ∧
    Snmalloc.lazy_replacement (Snmalloc.Ptr.real 1) Snmalloc.Ptr.placeholder
      Snmalloc.freshThreadState =
      (some (Snmalloc.lazy_replacement_slow (Snmalloc.Ptr.real 1)
          Snmalloc.freshThreadState).1,
        (Snmalloc.lazy_replacement_slow (Snmalloc.Ptr.real 1)
          Snmalloc.freshThreadState).2) :=
  ⟨(C2_lazy_replacement_fast_path (Snmalloc.Ptr.real 1) (Snmalloc.Ptr.real 0)
      Snmalloc.freshThreadState).1 (by decide),
    (C2_lazy_replacement_fast_path (Snmalloc.Ptr.real 1)
      Snmalloc.Ptr.placeholder Snmalloc.freshThreadState).2 rfl⟩

/-- C3: `lazy_replacement_slow` re-reads the slot; a non-null,
non-Placeholder slot value is returned with the state (hence the acquire
count and the slot) unchanged; otherwise the acquired handle is stored in
the slot, the cleanup is registered, and — given the Pool contract that
`acquire()` never yields the Placeholder — the stored and returned handle
is never the Placeholder. -/
theorem C3_lazy_replacement_slow_spec (acq : Snmalloc.Ptr)
    (s : Snmalloc.TAState) (hacq : acq ≠ Snmalloc.Ptr.placeholder) :
    (s.slot ≠ Snmalloc.Ptr.null ∧ s.slot ≠ Snmalloc.Ptr.placeholder →
      Snmalloc.lazy_replacement_slow acq s = (s.slot, s)) ∧
    (s.slot = Snmalloc.Ptr.placeholder ∨ s.slot = Snmalloc.Ptr.null →
      Snmalloc.lazy_replacement_slow acq s =
        (acq, { s with slot := acq, acquired := s.acquired + 1,
                       cleanupRegistered := true }) ∧
      acq ≠ Snmalloc.Ptr.placeholder) := by
  constructor
  · intro h
    simp [Snmalloc.lazy_replacement_slow, h]
  · intro h
    have hcond : ¬(s.slot ≠ Snmalloc.Ptr.null ∧
        s.slot ≠ Snmalloc.Ptr.placeholder) := by
      rcases h with h | h <;> simp [h]
    refine ⟨?_, hacq⟩
    simp [Snmalloc.lazy_replacement_slow, hcond]

/-- Witness for C3: promoting a fresh (Placeholder) slot with the concrete
handle `real 0` stores and returns it, bumps the acquire count, and
registers cleanup. -/
theorem C3_witness :
    Snmalloc.lazy_replacement_slow (Snmalloc.Ptr.real 0)
      Snmalloc.freshThreadState =
      (Snmalloc.Ptr.real 0,
        { slot := Snmalloc.Ptr.real 0, released := [], acquired := 1,
          cleanupRegistered := true }) ∧
    Snmalloc.Ptr.real 0 ≠ Snmalloc.Ptr.placeholder :=
  (C3_lazy_replacement_slow_spec (Snmalloc.Ptr.real 0)
    Snmalloc.freshThreadState (by decide)).2 (Or.inl rfl)

/-- C4: after `ThreadAllocThreadDestructor::inner_release` the slot
references the Placeholder; when the slot previously held a value different
from the Placeholder, exactly that value is appended to the Pool release
trace (and the slot reset); when it already held the Placeholder, nothing
happens at all. -/
theorem C4_inner_release_spec (s : Snmalloc.TAState) :
    (Snmalloc.inner_release s).slot = Snmalloc.Ptr.placeholder ∧
    (s.slot ≠ Snmalloc.Ptr.placeholder →
      Snmalloc.inner_release s =
        { s with slot := Snmalloc.Ptr.placeholder,
                 released := s.released ++ [s.slot] }) ∧
    (s.slot = Snmalloc.Ptr.placeholder → Snmalloc.inner_release s = s) := by
  by_cases h : s.slot = Snmalloc.Ptr.placeholder
  · refine ⟨?_, fun hne => absurd h hne, fun _ => ?_⟩ <;>
      simp [Snmalloc.inner_release, h]
  · refine ⟨?_, fun _ => ?_, fun heq => absurd heq h⟩ <;>
      simp [Snmalloc.inner_release, h]

/-- Witness for C4: releasing a slot holding the real handle `real 2`
resets the slot to the Placeholder and releases exactly that handle. -/
theorem C4_witness :
    Snmalloc.inner_release
      { slot := Snmalloc.Ptr.real 2, released := [], acquired := 1,
        cleanupRegistered := true } =
      { slot := Snmalloc.Ptr.placeholder, released := [Snmalloc.Ptr.real 2],
        acquired := 1, cleanupRegistered := true } :=
  (C4_inner_release_spec
    { slot := Snmalloc.Ptr.real 2, released := [], acquired := 1,
      cleanupRegistered := true }).2.1 (by decide)

/-- C5: on a fresh thread, every `get()` in any sequence of calls made
before a promotion returns the Placeholder, and the state — including the
Pool acquire count and release trace — is left exactly as it started, so
`get()` has no side effects and triggers no Pool interaction. -/
theorem C5_placeholder_purity (n : Nat) :
    Snmalloc.getSeq n Snmalloc.freshThreadState =
      (List.replicate n Snmalloc.Ptr.placeholder,
        Snmalloc.freshThreadState) := by
  induction n with
  | zero => rfl
  | succ n ih =>
    simp [Snmalloc.getSeq, Snmalloc.get, ih, List.replicate]
    rfl

/-- C10: `inner_release` is idempotent: running it a second time finds the
slot already reset to the Placeholder, so it performs no further
`Pool.release` and changes nothing. -/
theorem C10_inner_release_idempotent (s : Snmalloc.TAState) :
    Snmalloc.inner_release (Snmalloc.inner_release s) =
      Snmalloc.inner_release s := by
  by_cases hs : s.slot = Snmalloc.Ptr.placeholder <;>
    simp [Snmalloc.inner_release, hs]

/-- C6: under the precondition that the region is page-aligned whenever the
static `page_aligned` flag is set, `PALApple::zero` leaves every byte of
`[p, p + size)` zero on every path — remap success, remap failure followed
by the explicit fill, or the explicit fill directly; and with `page_aligned
= false` the remap path is attempted exactly when the runtime
page-alignment test passes. -/
theorem C6_zero_correct (page_aligned mmap_ok : Bool) (m : Snmalloc.Mem)
    (p size : Nat)
    (hpre : page_aligned = true →
      Snmalloc.is_aligned_block Snmalloc.OS_PAGE_SIZE p size = true) :
    (∀ a, p ≤ a → a < p + size →
      (Snmalloc.PALApple.zero page_aligned mmap_ok m p size).1 a = 0) ∧
    (page_aligned = false →
      ((Snmalloc.PALApple.zero page_aligned mmap_ok m p size).2 = true ↔
        Snmalloc.is_aligned_block Snmalloc.OS_PAGE_SIZE p size = true)) := by
  constructor
  · intro a ha1 ha2
    unfold Snmalloc.PALApple.zero Snmalloc.mmap_fixed_anon Snmalloc.bzero
    by_cases hc : (page_aligned ||
        Snmalloc.is_aligned_block Snmalloc.OS_PAGE_SIZE p size) = true
    · cases mmap_ok <;> simp [hc, ha1, ha2]
    · simp [hc, ha1, ha2]
  · intro hfalse
    subst hfalse
    unfold Snmalloc.PALApple.zero
    by_cases hal :
        Snmalloc.is_aligned_block Snmalloc.OS_PAGE_SIZE p size = true
    · cases hm : Snmalloc.mmap_fixed_anon mmap_ok m p size <;>
        simp [hal, hm]
    · simp only [Bool.not_eq_true] at hal
      simp [hal]

/-- Witness for C6: a page-aligned region whose remap attempt fails is
still fully zeroed by the fall-through explicit fill, and on a misaligned
region with `page_aligned = false` the remap-attempted flag agrees with the
runtime alignment test. -/
theorem C6_witness :
    (Snmalloc.PALApple.zero true false (fun _ => 1) 4096 4096).1 4100 = 0 ∧
    ((Snmalloc.PALApple.zero false true (fun _ => 1) 5 7).2 = true ↔
      Snmalloc.is_aligned_block Snmalloc.OS_PAGE_SIZE 5 7 = true) :=
  ⟨(C6_zero_correct true false (fun _ => 1) 4096 4096
      (fun _ => by decide)).1 4100 (by decide) (by decide),
    (C6_zero_correct false true (fun _ => 1) 5 7
      (fun h => by cases h)).2 rfl⟩

/-- C7: `PALApple::reserve` either returns the base of a mapping obtained
from the OS for exactly the requested number of bytes, or hits
`error("Out of memory")`, the fatal path; every successful result carries
exactly the requested size, never less. -/
theorem C7_reserve_exact (committed : Bool) (os : Nat → Option Nat)
    (size : Nat) :
    ((∃ p, os size = some p ∧
        Snmalloc.PALApple.reserve committed os size =
          Snmalloc.ReserveResult.ok p size) ∨
      (os size = none ∧
        Snmalloc.PALApple.reserve committed os size =
          Snmalloc.ReserveResult.fatal "Out of memory")) ∧
    (∀ p len, Snmalloc.PALApple.reserve committed os size =
        Snmalloc.ReserveResult.ok p len → len = size) := by
  constructor
  · cases hos : os size with
    | none => exact Or.inr ⟨rfl, by simp [Snmalloc.PALApple.reserve, hos]⟩
    | some p =>
      exact Or.inl ⟨p, rfl, by simp [Snmalloc.PALApple.reserve, hos]⟩
  · intro p len hr
    cases hos : os size with
    | none => simp [Snmalloc.PALApple.reserve, hos] at hr
    | some q =>
      simp [Snmalloc.PALApple.reserve, hos] at hr
      exact hr.2.symm

/-- Witness for C7: with an OS that maps the 42-byte request at address
10000, `reserve` returns that region and its recorded length is the
requested size. -/
theorem C7_witness :
    (42 : Nat) = 42 ∧
    Snmalloc.PALApple.reserve true (fun _ => some 10000) 42 =
      Snmalloc.ReserveResult.ok 10000 42 :=
  ⟨(C7_reserve_exact true (fun _ => some 10000) 42).2 10000 42 rfl, rfl⟩

/-- C8: `PALApple::pal_features` re-exports the BSD family base's flag set
unchanged, so it equals the base flags and, read as a bitset, contains
every base flag. -/
theorem C8_pal_features_reexports_base (b : Nat) :
    Snmalloc.PALApple.pal_features b = b ∧
    b ||| Snmalloc.PALApple.pal_features b =
      Snmalloc.PALApple.pal_features b := by
  simp [Snmalloc.PALApple.pal_features]

/-- C9: the `committed` template parameter of `PALApple::reserve` is unused
in its body, so both instantiations perform the identical mapping request
and return identical results. -/
theorem C9_reserve_committed_irrelevant (os : Nat → Option Nat)
    (size : Nat) :
    Snmalloc.PALApple.reserve true os size =
      Snmalloc.PALApple.reserve false os size := rfl

end Snmalloc
